import Mathlib

/-!
Shallow embedding of `src/elements.py` (repository `my_building`).

Python exceptions are modelled with `Except Err`; `AssertionError` raised by
the source's `assert` statements and explicit `raise`s, `TypeError` raised by
the interpreter on unsupported operand types, `KeyError` raised by pandas
column lookup, and `ValueError` raised by `min`/`max` of an empty sequence.
Python ints are modelled as `Int`; prices (Python `float`, but integral in
every use in this repository) are also modelled as `Int`.
-/

namespace Elements

/-- Exceptions that the embedded code can raise. -/
inductive Err where
  | assertionError (msg : String)
  | typeError (msg : String)
  | keyError (msg : String)
  | valueError (msg : String)
deriving DecidableEq, Repr

/-- Enum `Quantity` with members `M3 = "m3"`, `M2 = "m2"`, `P = "peace"`. -/
inductive Quantity where
  | M3
  | M2
  | P
deriving DecidableEq, Repr

/-- Dataclass `Material(name, price, price_quantity)`. Python does not enforce
the `price_quantity: Quantity` annotation, so the field is modelled as
`Option Quantity`: `some q` is a genuine `Quantity` member and `none` stands
for any other runtime value reaching the dispatch in `Layer.cost`. -/
structure Material where
  name : String
  price : Int
  price_quantity : Option Quantity
deriving DecidableEq, Repr

/-- Dataclass construction of `Material`: the class has no `__post_init__`
and no validation of any kind, so construction always succeeds. -/
def Material.new (name : String) (price : Int) (price_quantity : Option Quantity) :
    Except Err Material :=
  .ok ⟨name, price, price_quantity⟩

/-- Enum `Side` with the six box faces. -/
inductive Side where
  | TOP
  | BOTTOM
  | FRONT
  | REAR
  | LEFT
  | RIGHT
deriving DecidableEq, Repr

/-- Enum `Axis` with members `L`, `W`, `H`. -/
inductive Axis where
  | L
  | W
  | H
deriving DecidableEq, Repr

/-- Dataclass `Dimension(axis, quantity, _is_scaled=False)`. -/
structure Dimension where
  axis : Axis
  quantity : Int
  _is_scaled : Bool
deriving DecidableEq, Repr

/-- Dataclass construction of `Dimension`, running `__post_init__`: the axis
membership assert always holds for a genuine `Axis` value, and
`assert self.quantity > 0` fails otherwise. -/
def Dimension.new (axis : Axis) (quantity : Int) : Except Err Dimension :=
  if quantity > 0 then .ok ⟨axis, quantity, false⟩
  else .error (.assertionError "Dimension must be > 0")

/-- Method `Dimension.scaled(scale)`: asserts `scale > 0`, raises if the
instance is already scaled, otherwise flips `_is_scaled` and returns
`quantity * scale`. The mutation is modelled by also returning the updated
instance. -/
def Dimension.scaled (d : Dimension) (scale : Int) : Except Err (Int × Dimension) :=
  if scale > 0 then
    if d._is_scaled then .error (.assertionError "Value already scaled")
    else .ok (d.quantity * scale, ⟨d.axis, d.quantity, true⟩)
  else .error (.assertionError "Scale must be > 0")

/-- Method `Dimension.__add__`: the `isinstance` assert always holds for a
genuine `Dimension` operand; asserts equal axes, then constructs
`Dimension(self.axis, self.quantity + other.quantity)` (running
`__post_init__` again). -/
def Dimension.add (d other : Dimension) : Except Err Dimension :=
  if d.axis = other.axis then Dimension.new d.axis (d.quantity + other.quantity)
  else .error (.assertionError "Only the same dimensions can be combined")

/-- Dataclass `CoordSet(x1, y1, z1, x2, y2, z2)`. -/
structure CoordSet where
  x1 : Int
  y1 : Int
  z1 : Int
  x2 : Int
  y2 : Int
  z2 : Int
deriving DecidableEq, Repr

/-- Dataclass construction of `CoordSet`, running `__post_init__`: asserts
every coordinate is `>= 0`. -/
def CoordSet.new (x1 y1 z1 x2 y2 z2 : Int) : Except Err CoordSet :=
  if x1 ≥ 0 ∧ y1 ≥ 0 ∧ z1 ≥ 0 ∧ x2 ≥ 0 ∧ y2 ≥ 0 ∧ z2 ≥ 0 then
    .ok ⟨x1, y1, z1, x2, y2, z2⟩
  else .error (.assertionError "Coordinate should not be less than zero")

/-- Dataclass `Layer(name, material, exterior, connections, coords)`.
The `connections` list is never consulted by any method of `Layer` or its
subclasses, so its elements are modelled as `Unit`. -/
structure Layer where
  name : String
  material : Material
  exterior : Side
  connections : List Unit
  coords : CoordSet
deriving DecidableEq, Repr

/-- Method `Layer.dimensions()`: raw absolute extents along x, y, z; length
and width are swapped when `width > length`; each extent is wrapped in a
`Dimension`, whose construction asserts the quantity is positive. -/
def Layer.dimensions (l : Layer) : Except Err (Dimension × Dimension × Dimension) :=
  let length := |l.coords.x2 - l.coords.x1|
  let width := |l.coords.y2 - l.coords.y1|
  let height := |l.coords.z2 - l.coords.z1|
  let lw := if width > length then (width, length) else (length, width)
  do
    let dl ← Dimension.new .L lw.1
    let dw ← Dimension.new .W lw.2
    let dh ← Dimension.new .H height
    return (dl, dw, dh)

/-- Method `Layer.area()`: face area dispatched on the exterior `Side`. The
final `raise` branch of the source is unreachable for a genuine `Side`
value, which the match makes exhaustive. -/
def Layer.area (l : Layer) : Int :=
  match l.exterior with
  | .FRONT | .REAR => |l.coords.x2 - l.coords.x1| * |l.coords.z2 - l.coords.z1|
  | .LEFT | .RIGHT => |l.coords.y2 - l.coords.y1| * |l.coords.z2 - l.coords.z1|
  | .TOP | .BOTTOM => |l.coords.x2 - l.coords.x1| * |l.coords.y2 - l.coords.y1|

/-- Property `Layer.volume`: `value = 1`, then for each of the three
dimensions `value = d.quantity * value`. -/
def Layer.volume (l : Layer) : Except Err Int := do
  let dims ← l.dimensions
  return dims.2.2.quantity * (dims.2.1.quantity * (dims.1.quantity * 1))

/-- Method `Layer.scaled(scale)`: asserts `scale > 0`, then builds a fresh
`Dimension(d.axis, d.scaled(scale))` from each of the three dimensions.
Each call to `dimensions()` yields fresh unscaled `Dimension` instances, so
the one-time-scale guard never trips here. -/
def Layer.scaled (l : Layer) (scale : Int) : Except Err (Dimension × Dimension × Dimension) :=
  if scale > 0 then do
    let dims ← l.dimensions
    let vl ← (Prod.fst dims).scaled scale
    let dl ← Dimension.new (Prod.fst dims).axis vl.1
    let vw ← dims.2.1.scaled scale
    let dw ← Dimension.new dims.2.1.axis vw.1
    let vh ← dims.2.2.scaled scale
    let dh ← Dimension.new dims.2.2.axis vh.1
    return (dl, dw, dh)
  else .error (.assertionError "Scale must be > 0")

/-- Method `Layer.cost()`: the `if/elif/elif/else` chain over
`material.price_quantity`; a value that is not a `Quantity` member
(modelled as `none`) raises. -/
def Layer.cost (l : Layer) : Except Err Int :=
  if l.material.price_quantity = some .M3 then
    (Layer.volume l).map (fun v => v * l.material.price)
  else if l.material.price_quantity = some .M2 then
    .ok (l.area * l.material.price)
  else if l.material.price_quantity = some .P then
    .ok l.material.price
  else .error (.assertionError "Wrong price quantity of the material")

/-- Method `LayerMinus.volume()` (also inherited by `Window` and `Door`):
`super().volume` negated. Unlike `Layer.volume` this is an ordinary method,
not a property. -/
def LayerMinus.volume (l : Layer) : Except Err Int := do
  let v ← Layer.volume l
  return -v

/-- Method `Window.cost()` (identical for `Door`): `self.price * self.area()`,
ignoring the material pricing unit. -/
def WindowDoor.cost (l : Layer) (price : Int) : Except Err Int :=
  .ok (price * l.area)

/-- A runtime entry of a `Wall`: an instance of `Layer` or of one of its
dataclass subclasses `LayerMinus`, `Window(price)` and `Door(price)`. -/
inductive Element where
  | layer (l : Layer)
  | layerMinus (l : Layer)
  | window (l : Layer) (price : Int)
  | door (l : Layer) (price : Int)
deriving DecidableEq, Repr

/-- The `Layer` fields shared by every `Element` variant. -/
def Element.toLayer : Element → Layer
  | .layer l | .layerMinus l | .window l _ | .door l _ => l

/-- A Python value as it occurs in `Wall.volume`'s intermediate list: either
an `int`, or a bound-method object. -/
inductive PyVal where
  | int (n : Int)
  | boundMethod
deriving DecidableEq, Repr

/-- Attribute access `layer.volume` as performed by `Wall.volume`. On a base
`Layer` the attribute is the `@property`, so the access evaluates
`Layer.volume`. `LayerMinus` (and hence `Window` and `Door`) redefines
`volume` as an ordinary method, so on those instances the access returns a
bound-method object without calling it. -/
def Element.volumeAttr : Element → Except Err PyVal
  | .layer l => (Layer.volume l).map .int
  | .layerMinus _ | .window _ _ | .door _ _ => .ok .boundMethod

/-- Calling `volume` on an element: `Layer.volume` for a base layer (property
read), the overriding `LayerMinus.volume()` for the subclasses. -/
def Element.volumeCall : Element → Except Err Int
  | .layer l => Layer.volume l
  | .layerMinus l | .window l _ | .door l _ => LayerMinus.volume l

/-- Python addition of two such values, as performed by `sum`: `int + int`
adds; `int + bound-method` raises `TypeError` (`int.__add__` returns
`NotImplemented` and no `__radd__` exists on methods). -/
def pyAdd : PyVal → PyVal → Except Err PyVal
  | .int a, .int b => .ok (.int (a + b))
  | _, _ => .error (.typeError "unsupported operand types for +: int and method")

/-- Accumulator of `Wall.dimensions`: starts as the `int` `0` and is meant to
become a `Dimension` through `+=`. -/
inductive DimAcc where
  | int (n : Int)
  | dim (d : Dimension)
deriving DecidableEq, Repr

/-- Python `acc + d` for an accumulator and a `Dimension`, as performed by
`dimension += layer.dimensions()[i]`: `int + Dimension` raises `TypeError`
(`int.__add__` returns `NotImplemented` and `Dimension` defines no
`__radd__`); `Dimension + Dimension` is `Dimension.__add__`. -/
def pyAddDim : DimAcc → Dimension → Except Err DimAcc
  | .int _, _ => .error (.typeError "unsupported operand types for +: int and Dimension")
  | .dim a, d => (a.add d).map .dim

/-- Tuple indexing `layer.dimensions()[i]` for `i` in `range(3)`. -/
def dimsGet : Dimension × Dimension × Dimension → Nat → Dimension
  | (d, _, _), 0 => d
  | (_, d, _), 1 => d
  | (_, _, d), _ => d

/-- Dataclass `Wall(name, _layers)`. -/
structure Wall where
  name : String
  _layers : List Element
deriving DecidableEq, Repr

/-- Dataclass construction of `Wall`, running `__post_init__`: asserts the
layer list is non-empty. The second assert, that every entry is an
`isinstance` of `Layer`, always holds for the `Element` variants, all of
which are `Layer` subclasses. -/
def Wall.new (name : String) (layers : List Element) : Except Err Wall :=
  if layers.isEmpty then .error (.assertionError "At least one layer should be added to Wall")
  else .ok ⟨name, layers⟩

/-- Method `Wall.volume()`: builds the list `[layer.volume for layer in
self._layers]` (attribute accesses, which evaluate the property on base
layers only), then `sum(volumes)` starting from the `int` `0`. -/
def Wall.volume (w : Wall) : Except Err PyVal := do
  let volumes ← w._layers.mapM Element.volumeAttr
  volumes.foldlM pyAdd (.int 0)

/-- One iteration of the outer loop of `Wall.dimensions()`: `dimension = 0`,
then `dimension += layer.dimensions()[i]` over the layers. -/
def Wall.dimensionAlong (w : Wall) (i : Nat) : Except Err DimAcc :=
  w._layers.foldlM
    (fun acc el => do
      let dims ← el.toLayer.dimensions
      pyAddDim acc (dimsGet dims i))
    (.int 0)

/-- Method `Wall.dimensions()`: the per-axis accumulation for `i` in
`range(3)`, collected into a list. -/
def Wall.dimensions (w : Wall) : Except Err (List DimAcc) := do
  let d0 ← w.dimensionAlong 0
  let d1 ← w.dimensionAlong 1
  let d2 ← w.dimensionAlong 2
  return [d0, d1, d2]

/-- A pandas column label: a string or an integer. -/
inductive ColKey where
  | str (s : String)
  | int (n : Int)
deriving DecidableEq, Repr

/-- A pandas `DataFrame` restricted to what `Wall.coords` uses: labelled
integer columns. -/
structure DataFrame where
  columns : List (ColKey × List Int)

/-- Modelled from pandas (the repository pins no version; behavior of every
release since 1.1): `pd.DataFrame(data)` on a list of dataclass instances
converts each instance to a dict, so the columns are labelled by the
dataclass field names `"x1" ... "z2"`. -/
def pdDataFrame (data : List CoordSet) : DataFrame :=
  ⟨[(.str "x1", data.map (fun c => c.x1)), (.str "y1", data.map (fun c => c.y1)),
    (.str "z1", data.map (fun c => c.z1)), (.str "x2", data.map (fun c => c.x2)),
    (.str "y2", data.map (fun c => c.y2)), (.str "z2", data.map (fun c => c.z2))]⟩

/-- Modelled from pandas: `df[key]` returns the column whose label equals the
key and raises `KeyError` when no column label matches. -/
def DataFrame.col (df : DataFrame) (k : ColKey) : Except Err (List Int) :=
  match df.columns.find? (fun c => c.1 == k) with
  | some c => .ok c.2
  | none => .error (.keyError "column label not found")

/-- Python `min` over a column's values. -/
def pyMin (xs : List Int) : Except Err Int :=
  match xs.min? with
  | some m => .ok m
  | none => .error (.valueError "min of empty sequence")

/-- Python `max` over a column's values. -/
def pyMax (xs : List Int) : Except Err Int :=
  match xs.max? with
  | some m => .ok m
  | none => .error (.valueError "max of empty sequence")

/-- Method `Wall.coords()`: collects the layers' `CoordSet`s into a
`DataFrame` and builds `CoordSet(min(df[0]), min(df[1]), min(df[2]),
max(df[3]), max(df[4]), max(df[5]))`, arguments evaluated left to right. -/
def Wall.coords (w : Wall) : Except Err CoordSet := do
  let data := w._layers.map (fun el => el.toLayer.coords)
  let df := pdDataFrame data
  let m0 ← df.col (.int 0) >>= pyMin
  let m1 ← df.col (.int 1) >>= pyMin
  let m2 ← df.col (.int 2) >>= pyMin
  let m3 ← df.col (.int 3) >>= pyMax
  let m4 ← df.col (.int 4) >>= pyMax
  let m5 ← df.col (.int 5) >>= pyMax
  CoordSet.new m0 m1 m2 m3 m4 m5

/-- Method `Wall.add_layer(layer)`: the `isinstance` assert always holds for
an `Element`; appends at the end. -/
def Wall.add_layer (w : Wall) (layer : Element) : Except Err Wall :=
  .ok ⟨w.name, w._layers ++ [layer]⟩

/-- Method `Wall.remove_layer(name)`: asserts some contained layer has the
given name, then removes the first match. -/
def Wall.remove_layer (w : Wall) (layer : String) : Except Err Wall :=
  if (w._layers.filter (fun l => l.toLayer.name == layer)).isEmpty then
    .error (.assertionError "not found in the Wall layers")
  else .ok ⟨w.name, w._layers.eraseP (fun l => l.toLayer.name == layer)⟩

/-! Helper lemmas shared by the claim theorems. -/

/-- When all three absolute extents are positive, `dimensions()` succeeds and
returns the canonical triple: length is the larger of the x- and y-extents,
width the smaller, height the z-extent. -/
theorem Layer.dimensions_pos (l : Layer)
    (hx : 0 < |l.coords.x2 - l.coords.x1|)
    (hy : 0 < |l.coords.y2 - l.coords.y1|)
    (hz : 0 < |l.coords.z2 - l.coords.z1|) :
    l.dimensions = .ok
      (⟨.L, max |l.coords.x2 - l.coords.x1| |l.coords.y2 - l.coords.y1|, false⟩,
       ⟨.W, min |l.coords.x2 - l.coords.x1| |l.coords.y2 - l.coords.y1|, false⟩,
       ⟨.H, |l.coords.z2 - l.coords.z1|, false⟩) := by
  unfold Layer.dimensions Dimension.new
  by_cases h : |l.coords.y2 - l.coords.y1| > |l.coords.x2 - l.coords.x1|
  · simp [h, hx, hy, hz, max_eq_right h.le, min_eq_left h.le]
    rfl
  · simp [h, hx, hy, hz, max_eq_left (not_lt.mp h), min_eq_right (not_lt.mp h)]
    rfl

/-- When some absolute extent is zero, `dimensions()` raises the
`Dimension.__post_init__` assertion. -/
theorem Layer.dimensions_err (l : Layer)
    (h : ¬(0 < |l.coords.x2 - l.coords.x1| ∧ 0 < |l.coords.y2 - l.coords.y1| ∧
        0 < |l.coords.z2 - l.coords.z1|)) :
    l.dimensions = .error (.assertionError "Dimension must be > 0") := by
  unfold Layer.dimensions Dimension.new
  have na : 0 ≤ |l.coords.x2 - l.coords.x1| := abs_nonneg _
  have nb : 0 ≤ |l.coords.y2 - l.coords.y1| := abs_nonneg _
  have nc : 0 ≤ |l.coords.z2 - l.coords.z1| := abs_nonneg _
  rw [not_and_or, not_and_or, not_lt, not_lt, not_lt,
    abs_nonpos_iff, abs_nonpos_iff, abs_nonpos_iff] at h
  by_cases hba : |l.coords.y2 - l.coords.y1| > |l.coords.x2 - l.coords.x1| <;>
    simp [hba] <;> split_ifs <;>
      first | rfl | (exfalso; rcases h with h | h | h <;> omega)

/-- `Layer.volume` only reads the layer's `CoordSet`. -/
theorem Layer.volume_congr (lw lb : Layer) (h : lw.coords = lb.coords) :
    Layer.volume lw = Layer.volume lb := by
  unfold Layer.volume Layer.dimensions
  rw [h]

/-! Concrete fixtures used by the claim theorems and witnesses. -/

/-- A volume-priced material, price 10 per m3. -/
def mat_concrete : Material := ⟨"concrete", 10, some .M3⟩

/-- An area-priced material, price 11 per m2. -/
def mat_brick : Material := ⟨"brick", 11, some .M2⟩

/-- A piece-priced material, flat price 60. -/
def mat_door : Material := ⟨"door", 60, some .P⟩

/-- A material whose pricing-unit field holds a non-`Quantity` value. -/
def mat_invalid : Material := ⟨"invalid", 1, none⟩

/-- A layer of volume 1 * 2 * 5 = 10. -/
def layer_ten : Layer := ⟨"layer_ten", mat_concrete, .FRONT, [], ⟨0, 0, 0, 1, 2, 5⟩⟩

/-- A layer of volume 2 * 2 * 5 = 20. -/
def layer_twenty : Layer := ⟨"layer_twenty", mat_concrete, .FRONT, [], ⟨0, 0, 0, 2, 2, 5⟩⟩

/-- An opening of volume 1 * 1 * 5 = 5, negated to -5 by `LayerMinus.volume`. -/
def layer_win : Layer := ⟨"layer_win", mat_concrete, .FRONT, [], ⟨0, 0, 0, 1, 1, 5⟩⟩

/-- A unit cube layer. -/
def layer_cube : Layer := ⟨"layer_cube", mat_concrete, .FRONT, [], ⟨0, 0, 0, 1, 1, 1⟩⟩

/-- The box (0,0,0,2,2,2) of the C4 example. -/
def layer_box_a : Layer := ⟨"layer_box_a", mat_concrete, .FRONT, [], ⟨0, 0, 0, 2, 2, 2⟩⟩

/-- The box (1,1,1,3,3,3) of the C4 example. -/
def layer_box_b : Layer := ⟨"layer_box_b", mat_concrete, .FRONT, [], ⟨1, 1, 1, 3, 3, 3⟩⟩

/-- A layer of volume 6, for the volume-priced cost example. -/
def layer_vol_six : Layer := ⟨"layer_vol_six", mat_concrete, .FRONT, [], ⟨0, 0, 0, 1, 2, 3⟩⟩

/-- A FRONT-facing layer of face area 2 * 2 = 4, for the area-priced cost
example. -/
def layer_area_four : Layer := ⟨"layer_area_four", mat_brick, .FRONT, [], ⟨0, 0, 0, 2, 1, 2⟩⟩

/-- A layer with a piece-priced material; its geometry is irrelevant. -/
def layer_piece : Layer := ⟨"layer_piece", mat_door, .FRONT, [], ⟨0, 0, 0, 9, 9, 9⟩⟩

/-- A layer whose material's pricing unit is not a `Quantity` member. -/
def layer_bad_mat : Layer := ⟨"layer_bad_mat", mat_invalid, .FRONT, [], ⟨0, 0, 0, 1, 1, 1⟩⟩

/-- A window layer sharing `layer_vol_six`'s coordinates. -/
def layer_win_six : Layer := ⟨"layer_win_six", mat_concrete, .FRONT, [], ⟨0, 0, 0, 1, 2, 3⟩⟩

/-- A layer degenerate along the x axis (`x1 == x2`). -/
def layer_flat : Layer := ⟨"layer_flat", mat_concrete, .FRONT, [], ⟨0, 0, 0, 0, 1, 1⟩⟩

/-! Claim theorems. -/

/-- C1: the claim says `wall.volume()` sums every contained layer's volume
with openings contributing negatively, so that layers of volume 10, 20 and
an opening of -5 give 25. On the code, each summand of the example indeed
has the claimed volume when `volume` is invoked, but `Wall.volume` reads
`layer.volume` as an attribute: `Layer.volume` is a `@property` while
`LayerMinus` overrides `volume` with a plain method, so on an opening the
attribute is a bound method and `sum` raises `TypeError` instead of
returning 25. -/
theorem c1_wall_volume_with_opening_raises :
    Layer.volume layer_ten = .ok 10 ∧ Layer.volume layer_twenty = .ok 20 ∧
    Element.volumeCall (.window layer_win 100) = .ok (-5) ∧
    Wall.volume ⟨"wall", [.layer layer_ten, .layer layer_twenty, .window layer_win 100]⟩ =
      .error (.typeError "unsupported operand types for +: int and method") :=
  ⟨rfl, rfl, rfl, rfl⟩

/-- C2: a `Window`'s `volume()` is the arithmetic negation of the volume of a
base `Layer` with the same `CoordSet`. -/
theorem c2_opening_volume_negation (lw lb : Layer) (price v : Int)
    (hc : lw.coords = lb.coords) (hv : Layer.volume lb = .ok v) :
    Element.volumeCall (.window lw price) = .ok (-v) := by
  have h := Layer.volume_congr lw lb hc
  simp only [Element.volumeCall, LayerMinus.volume]
  rw [h, hv]
  rfl

/-- Witness for C2 at a window and a layer sharing the box (0,0,0,1,2,3), of
volume 6. -/
theorem c2_opening_volume_negation_witness :
    Element.volumeCall (.window layer_win_six 100) = .ok (-6) :=
  c2_opening_volume_negation layer_win_six layer_vol_six 100 6 rfl rfl

/-- C3: the claim says `wall.dimensions()` returns the per-axis sums of the
layers' `Dimension`s. On the code, the layer's own `dimensions()` is fine,
but the accumulator of `Wall.dimensions` starts as the int `0` and
`Dimension` defines no `__radd__`, so the first `dimension +=
layer.dimensions()[i]` raises `TypeError` for every wall. Evaluated at a
wall of one unit-cube layer. -/
theorem c3_wall_dimensions_raises :
    Layer.dimensions layer_cube = .ok (⟨.L, 1, false⟩, ⟨.W, 1, false⟩, ⟨.H, 1, false⟩) ∧
    Wall.dimensions ⟨"wall", [.layer layer_cube]⟩ =
      .error (.typeError "unsupported operand types for +: int and Dimension") :=
  ⟨rfl, rfl⟩

/-- C4: the claim says `wall.coords()` over boxes (0,0,0,2,2,2) and
(1,1,1,3,3,3) returns (0,0,0,3,3,3). On the code, `pd.DataFrame` over a
list of `CoordSet` dataclass instances labels the columns with the field
names `"x1" ... "z2"`, so the integer lookup `df[0]` raises `KeyError` and
`Wall.coords` never returns a bounding box. -/
theorem c4_wall_coords_raises :
    Wall.coords ⟨"wall", [.layer layer_box_a, .layer layer_box_b]⟩ =
      .error (.keyError "column label not found") :=
  rfl

/-- C5: `Layer.cost()` dispatches on the material's pricing unit: volume
pricing multiplies the volume by the price, area pricing multiplies the
face area by the price, piece pricing returns the flat price whatever the
geometry, and any non-`Quantity` value raises instead of defaulting. -/
theorem c5_layer_cost_dispatch (l : Layer) :
    (l.material.price_quantity = some .M3 →
      l.cost = (Layer.volume l).map (fun v => v * l.material.price)) ∧
    (l.material.price_quantity = some .M2 →
      l.cost = .ok (l.area * l.material.price)) ∧
    (l.material.price_quantity = some .P → l.cost = .ok l.material.price) ∧
    (l.material.price_quantity = none →
      l.cost = .error (.assertionError "Wrong price quantity of the material")) := by
  refine ⟨fun h => ?_, fun h => ?_, fun h => ?_, fun h => ?_⟩ <;>
    simp [Layer.cost, h]

/-- Witness for C5: volume pricing at 10 on volume 6 gives 60, area pricing
at 11 on area 4 gives 44, piece pricing gives the flat 60, and a
non-`Quantity` pricing unit raises. -/
theorem c5_layer_cost_dispatch_witness :
    layer_vol_six.cost = .ok 60 ∧ layer_area_four.cost = .ok 44 ∧
    layer_piece.cost = .ok 60 ∧
    layer_bad_mat.cost = .error (.assertionError "Wrong price quantity of the material") := by
  refine ⟨?_, ?_, ?_, ?_⟩
  · rw [(c5_layer_cost_dispatch layer_vol_six).1 rfl]; rfl
  · rw [(c5_layer_cost_dispatch layer_area_four).2.1 rfl]; rfl
  · rw [(c5_layer_cost_dispatch layer_piece).2.2.1 rfl]; rfl
  · rw [(c5_layer_cost_dispatch layer_bad_mat).2.2.2 rfl]

/-- C6: on a non-degenerate box, `dimensions()` returns the canonical triple
with length and width swapped whenever the y-extent exceeds the x-extent,
the returned length quantity is never below the width quantity, and
`volume` is the product of the three absolute extents. -/
theorem c6_layer_dimensions_canonical (l : Layer)
    (hx : 0 < |l.coords.x2 - l.coords.x1|)
    (hy : 0 < |l.coords.y2 - l.coords.y1|)
    (hz : 0 < |l.coords.z2 - l.coords.z1|) :
    l.dimensions = .ok
      (⟨.L, max |l.coords.x2 - l.coords.x1| |l.coords.y2 - l.coords.y1|, false⟩,
       ⟨.W, min |l.coords.x2 - l.coords.x1| |l.coords.y2 - l.coords.y1|, false⟩,
       ⟨.H, |l.coords.z2 - l.coords.z1|, false⟩) ∧
    (∀ dl dw dh, l.dimensions = .ok (dl, dw, dh) → dw.quantity ≤ dl.quantity) ∧
    l.volume = .ok (|l.coords.x2 - l.coords.x1| * |l.coords.y2 - l.coords.y1| *
      |l.coords.z2 - l.coords.z1|) := by
  have hd := Layer.dimensions_pos l hx hy hz
  have key : |l.coords.z2 - l.coords.z1| *
      (min |l.coords.x2 - l.coords.x1| |l.coords.y2 - l.coords.y1| *
        (max |l.coords.x2 - l.coords.x1| |l.coords.y2 - l.coords.y1| * 1)) =
      |l.coords.x2 - l.coords.x1| * |l.coords.y2 - l.coords.y1| *
        |l.coords.z2 - l.coords.z1| := by
    rcases le_total |l.coords.x2 - l.coords.x1| |l.coords.y2 - l.coords.y1| with hle | hle
    · rw [min_eq_left hle, max_eq_right hle]; ring
    · rw [min_eq_right hle, max_eq_left hle]; ring
  refine ⟨hd, ?_, ?_⟩
  · intro dl dw dh h
    rw [hd] at h
    simp only [Except.ok.injEq, Prod.mk.injEq] at h
    obtain ⟨h1, h2, -⟩ := h
    rw [← h1, ← h2]
    exact min_le_max
  · unfold Layer.volume
    rw [hd]
    exact congrArg Except.ok key

/-- Witness for C6 at the box (0,0,0,1,2,3): the y-extent 2 exceeds the
x-extent 1, so length and width are swapped and the volume is 6. -/
theorem c6_layer_dimensions_canonical_witness :
    layer_vol_six.dimensions = .ok (⟨.L, 2, false⟩, ⟨.W, 1, false⟩, ⟨.H, 3, false⟩) ∧
    layer_vol_six.volume = .ok 6 := by
  obtain ⟨h1, -, h3⟩ :=
    c6_layer_dimensions_canonical layer_vol_six (by decide) (by decide) (by decide)
  exact ⟨h1, h3⟩

/-- C7: `scaled(factor)` fails on a non-positive factor, fails on an
already-scaled instance, and otherwise returns `quantity * factor` while
flipping the instance into the scaled state, after which any further
`scaled` call on that instance fails. -/
theorem c7_dimension_scaled_once (d : Dimension) (scale : Int) :
    (scale ≤ 0 → d.scaled scale = .error (.assertionError "Scale must be > 0")) ∧
    (0 < scale → d._is_scaled = true →
      d.scaled scale = .error (.assertionError "Value already scaled")) ∧
    (0 < scale → d._is_scaled = false →
      d.scaled scale = .ok (d.quantity * scale, ⟨d.axis, d.quantity, true⟩) ∧
      ∀ s2 : Int, ∃ e, Dimension.scaled ⟨d.axis, d.quantity, true⟩ s2 = .error e) := by
  refine ⟨fun h => ?_, fun h1 h2 => ?_, fun h1 h2 => ⟨?_, fun s2 => ?_⟩⟩
  · simp [Dimension.scaled, not_lt.mpr h]
  · simp [Dimension.scaled, h1, h2]
  · simp [Dimension.scaled, h1, h2]
  · by_cases hs : s2 > 0
    · exact ⟨.assertionError "Value already scaled", by simp [Dimension.scaled, hs]⟩
    · exact ⟨.assertionError "Scale must be > 0", by simp [Dimension.scaled, hs]⟩

/-- Witness for C7: the first `scaled(2)` on an unscaled quantity 5 returns
10 and flips the state; a second `scaled(2)` on the result fails. -/
theorem c7_dimension_scaled_once_witness :
    Dimension.scaled ⟨.L, 5, false⟩ 2 = .ok (10, ⟨.L, 5, true⟩) ∧
    ∃ e, Dimension.scaled ⟨.L, 5, true⟩ 2 = .error e := by
  obtain ⟨h1, h2⟩ := (c7_dimension_scaled_once ⟨.L, 5, false⟩ 2).2.2 (by decide) rfl
  exact ⟨h1, h2 2⟩

/-- C8: `Dimension` addition fails on distinct axes and otherwise returns an
unscaled `Dimension` on the common axis with the summed quantity (the
quantities of genuine instances being positive by construction). -/
theorem c8_dimension_add_same_axis (d1 d2 : Dimension) :
    (d1.axis ≠ d2.axis →
      d1.add d2 = .error (.assertionError "Only the same dimensions can be combined")) ∧
    (d1.axis = d2.axis → 0 < d1.quantity → 0 < d2.quantity →
      d1.add d2 = .ok ⟨d1.axis, d1.quantity + d2.quantity, false⟩) := by
  constructor
  · intro h
    simp [Dimension.add, h]
  · intro h h1 h2
    have hq : d1.quantity + d2.quantity > 0 := by omega
    simp [Dimension.add, h, Dimension.new, hq]

/-- Witness for C8: `Dimension(L,3) + Dimension(L,4) == Dimension(L,7)` and
`Dimension(L,3) + Dimension(W,4)` fails. -/
theorem c8_dimension_add_same_axis_witness :
    Dimension.add ⟨.L, 3, false⟩ ⟨.L, 4, false⟩ = .ok ⟨.L, 7, false⟩ ∧
    Dimension.add ⟨.L, 3, false⟩ ⟨.W, 4, false⟩ =
      .error (.assertionError "Only the same dimensions can be combined") := by
  refine ⟨?_, ?_⟩
  · exact (c8_dimension_add_same_axis ⟨.L, 3, false⟩ ⟨.L, 4, false⟩).2 rfl (by decide) (by decide)
  · exact (c8_dimension_add_same_axis ⟨.L, 3, false⟩ ⟨.W, 4, false⟩).1 (by decide)

/-- C9 counterexample: the claim says constructing a `Material` with a
non-positive price fails eagerly with an invalid-value error; on the code,
`Material` runs no validation and construction with price -1 succeeds. -/
theorem c9_material_negative_price_accepted :
    Material.new "m" (-1) (some .M3) = .ok ⟨"m", -1, some .M3⟩ := rfl

/-- C9 (amended): `Material` construction performs no validation at all: it
succeeds for every name, price and pricing unit, so a `Material` with a
non-positive price can exist. -/
theorem c9_material_construction_never_fails (name : String) (price : Int)
    (pq : Option Quantity) :
    Material.new name price pq = .ok ⟨name, price, pq⟩ := rfl

/-- C10: `dimensions()` succeeds exactly when all three absolute extents are
positive, and on a box degenerate along some axis `dimensions()`, `volume`
and `scaled()` all raise. -/
theorem c10_degenerate_layer_raises (l : Layer) :
    ((∃ t, l.dimensions = .ok t) ↔
      (0 < |l.coords.x2 - l.coords.x1| ∧ 0 < |l.coords.y2 - l.coords.y1| ∧
        0 < |l.coords.z2 - l.coords.z1|)) ∧
    ((l.coords.x1 = l.coords.x2 ∨ l.coords.y1 = l.coords.y2 ∨
        l.coords.z1 = l.coords.z2) →
      l.dimensions = .error (.assertionError "Dimension must be > 0") ∧
      l.volume = .error (.assertionError "Dimension must be > 0") ∧
      ∀ s : Int, ∃ e, l.scaled s = .error e) := by
  constructor
  · constructor
    · rintro ⟨t, ht⟩
      by_contra h
      exact Except.noConfusion ((Layer.dimensions_err l h).symm.trans ht)
    · rintro ⟨hx, hy, hz⟩
      exact ⟨_, Layer.dimensions_pos l hx hy hz⟩
  · intro h
    have hne : ¬(0 < |l.coords.x2 - l.coords.x1| ∧ 0 < |l.coords.y2 - l.coords.y1| ∧
        0 < |l.coords.z2 - l.coords.z1|) := by
      rcases h with h | h | h <;> simp [h]
    have he := Layer.dimensions_err l hne
    refine ⟨he, ?_, ?_⟩
    · unfold Layer.volume
      rw [he]
      rfl
    · intro s
      by_cases hs : s > 0
      · refine ⟨.assertionError "Dimension must be > 0", ?_⟩
        unfold Layer.scaled
        rw [if_pos hs, he]
        rfl
      · refine ⟨.assertionError "Scale must be > 0", ?_⟩
        unfold Layer.scaled
        rw [if_neg hs]

/-- Witness for C10 at a layer degenerate along x (`x1 == x2 == 0`). -/
theorem c10_degenerate_layer_raises_witness :
    layer_flat.dimensions = .error (.assertionError "Dimension must be > 0") ∧
    layer_flat.volume = .error (.assertionError "Dimension must be > 0") ∧
    ∃ e, layer_flat.scaled 1 = .error e := by
  obtain ⟨h1, h2, h3⟩ := (c10_degenerate_layer_raises layer_flat).2 (Or.inl rfl)
  exact ⟨h1, h2, h3 1⟩

end Elements
